import Mathlib

/-!
A shallow embedding of `src/Element.h` of the c2play push-model pipeline:
the `PinCollection` container and the `Element` lifecycle/synchronization
engine (execution-state machine, sleep/wake gate, play/pause axis,
terminate/flush ordering), with theorems checking the specification's
claims against the embedded code.
-/

namespace C2Play

/-- Execution lifecycle states of an `Element` (src/Element.h lines 97-103). -/
inductive ExecutionState
  | WaitingForExecute
  | Initializing
  | Executing
  | Terminating
  deriving DecidableEq

/-- The play/pause axis (`MediaState` is defined outside this header; the core
only ever compares it against `Play`, and a fresh element starts in `Pause`). -/
inductive MediaState
  | Play
  | Pause
  deriving DecidableEq

/-- The error kinds the header throws: `InvalidOperationException` from
`Execute`/`Terminate`, `ArgumentOutOfRangeException` from `PinCollection::Item`,
and the plain `Exception` thrown when `pthread_cond_broadcast` fails in `Wake`. -/
inductive ElemError
  | invalidOperation
  | argumentOutOfRange
  | synchronization
  deriving DecidableEq

/-- Observable calls the element code makes, recorded as a trace of effects:
flushing one input or output pin (pins are identified by `Nat` handles),
running `DoWork`, the `ChangeState` hook with old and new value, the wake
broadcast, the worker-of-execution operations, and a write of `status`. -/
inductive Event
  | flushIn (pin : Nat)
  | flushOut (pin : Nat)
  | doWork
  | changeState (oldState newState : MediaState)
  | wake
  | threadStart
  | threadCancel
  | threadJoin
  | setStatus (s : ExecutionState)
  deriving DecidableEq

/-- `PinCollection<T>` (src/Element.h lines 28-76): wraps `std::vector<T> pins`;
insertion order is the list order. -/
structure PinCollection (T : Type) where
  pins : List T
  deriving DecidableEq

/-- `Add(value)`: `pins.push_back(value)`. -/
def PinCollection.Add {T : Type} (c : PinCollection T) (value : T) : PinCollection T :=
  ⟨c.pins ++ [value]⟩

/-- `Clear()`: `pins.clear()`. -/
def PinCollection.Clear {T : Type} (_c : PinCollection T) : PinCollection T :=
  ⟨[]⟩

/-- `Count()`: returns `pins.size()` as a C++ `int`. -/
def PinCollection.Count {T : Type} (c : PinCollection T) : Int :=
  c.pins.length

/-- `Item(int index)` exactly as written (src/Element.h lines 61-67):
`if (index < 0 || index > pins.size()) throw ArgumentOutOfRangeException();
return pins[index];`. The bound check uses `>` rather than `>=`, so
`index == pins.size()` passes the check and `pins[index]` is then an
out-of-bounds `std::vector::operator[]` access; that access is modelled by
the `Option`: `none` is the out-of-bounds read, `some` the stored handle. -/
def PinCollection.Item {T : Type} (c : PinCollection T) (index : Int) :
    Except ElemError (Option T) :=
  if index < 0 ∨ index > (c.pins.length : Int) then
    Except.error ElemError.argumentOutOfRange
  else
    Except.ok c.pins[index.toNat]?

/-- `Flush()` (src/Element.h lines 69-75): invokes `pin->Flush()` on each
contained pin sequentially; the result is the sequence of pins whose `Flush`
is invoked, in insertion order. -/
def PinCollection.Flush {T : Type} (c : PinCollection T) : List T :=
  c.pins

/-- The fields of `Element` (src/Element.h lines 105-122) that the embedding
tracks: play state, both pin collections (`InPinSPTR`/`OutPinSPTR` handles are
opaque `Nat`s here), execution status, the boolean half of the sleep gate,
the name, and the diagnostic toggle. The pthread mutexes and condition
variables carry no state beyond the waiters they release. -/
structure Element where
  state : MediaState := MediaState.Pause
  inputs : PinCollection Nat := ⟨[]⟩
  outputs : PinCollection Nat := ⟨[]⟩
  status : ExecutionState := ExecutionState.WaitingForExecute
  canSleep : Bool := true
  name : String := "Element"
  logEnabled : Bool := false
  deriving DecidableEq

/-- `Status()` accessor (src/Element.h lines 229-232). -/
def Element.Status (e : Element) : ExecutionState :=
  e.status

/-- `State()` accessor (src/Element.h lines 312-315). -/
def Element.State (e : Element) : MediaState :=
  e.state

/-- `Name()` accessor (src/Element.h lines 234-237). -/
def Element.Name (e : Element) : String :=
  e.name

/-- `SetExecutionState(state)` (src/Element.h lines 125-132): writes `status`
and signals the execution-state rendezvous condition. -/
def Element.SetExecutionState (e : Element) (s : ExecutionState) :
    Element × List Event :=
  ({e with status := s}, [Event.setStatus s])

/-- `Element::Flush()` (src/Element.h lines 150-156): `inputs.Flush();
outputs.Flush();` — each input pin flushed in insertion order, then each
output pin in insertion order. -/
def Element.Flush (e : Element) : List Event :=
  e.inputs.Flush.map Event.flushIn ++ e.outputs.Flush.map Event.flushOut

/-- `Execute()` (src/Element.h lines 260-268): throws `InvalidOperationException`
unless `status == WaitingForExecute`; otherwise calls `thread.Start()` and
returns immediately, changing no field of the element in the caller. The
result is the element after the call, the trace, and the thrown error if any. -/
def Element.Execute (e : Element) : Element × List Event × Option ElemError :=
  if e.status ≠ ExecutionState.WaitingForExecute then
    (e, [], some ElemError.invalidOperation)
  else
    (e, [Event.threadStart], none)

/-- `Wake(broadcastOk)` (src/Element.h lines 270-285): takes the wait mutex,
sets `canSleep = false`, then calls `pthread_cond_broadcast`; when the
broadcast reports failure (`broadcastOk = false`) the function throws — but
only after the gate was already cleared, so the write to `canSleep` survives
the failed call. -/
def Element.Wake (e : Element) (broadcastOk : Bool) :
    Element × List Event × Option ElemError :=
  let e1 := {e with canSleep := false}
  if broadcastOk then (e1, [Event.wake], none)
  else (e1, [], some ElemError.synchronization)

/-- `Terminate()` (src/Element.h lines 287-299): throws unless
`status == Executing`; otherwise, in order: `SetExecutionState(Terminating)`,
`Flush()`, `thread.Cancel()`, `thread.Join()`. The join's blocking until the
worker has exited is modelled separately by `runWorker`. -/
def Element.Terminate (e : Element) : Element × List Event × Option ElemError :=
  if e.status ≠ ExecutionState.Executing then
    (e, [], some ElemError.invalidOperation)
  else
    let p := Element.SetExecutionState e ExecutionState.Terminating
    (p.1, p.2 ++ Element.Flush p.1 ++ [Event.threadCancel, Event.threadJoin], none)

/-- `ChangeState(oldState, newState)` (src/Element.h lines 302-310): sets
`state = newState`, then calls `Wake()` (its broadcast assumed to succeed, as
a thrown synchronization error would abort the change midway); the leading
event records the hook being invoked with both values. -/
def Element.ChangeState (e : Element) (oldState newState : MediaState) :
    Element × List Event :=
  let e1 := {e with state := newState}
  let w := Element.Wake e1 true
  (w.1, Event.changeState oldState newState :: w.2.1)

/-- `SetState(value)` (src/Element.h lines 316-325): calls
`ChangeState(state, value)` iff `state != value`; otherwise the body is
skipped entirely and nothing at all happens. -/
def Element.SetState (e : Element) (value : MediaState) : Element × List Event :=
  if e.state ≠ value then Element.ChangeState e e.state value
  else (e, [])

/-- One full iteration of the worker's while-body (src/Element.h lines
166-189) as a single function: `DoWork` runs iff `state == MediaState::Play`
at the iteration's check; the worker then reaches the sleep gate, where it
blocks iff `canSleep` is true (the returned Bool records whether it blocked,
an external `Wake` being needed to release it); after passing the gate,
`canSleep` is reset to `true`. -/
def Element.loopIter (e : Element) : Element × List Event × Bool :=
  ({e with canSleep := true},
    (if e.state = MediaState.Play then [Event.doWork] else []),
    e.canSleep)

/-- The state effect on the element of a successful `Wake()`. -/
def Element.wakeGate (e : Element) : Element :=
  (Element.Wake e true).1

/-- Program counter of `InternalWorkThread`'s main loop (src/Element.h lines
166-191): `loopTop` is about to evaluate `status == ExecutionState::Executing`;
`working` is inside the body about to run `DoWork()`; `gate` is about to
evaluate the inner `while (canSleep)`; `sleeping` is parked in
`pthread_cond_wait`; `exited` is past the final
`SetExecutionState(WaitingForExecute)`. -/
inductive WorkerLoc
  | loopTop
  | working
  | gate
  | sleeping
  | exited
  deriving DecidableEq

/-- One small step of the worker loop. The `cancelled` flag is modelled from
the spec: the `Thread` worker-of-execution abstraction (`Start`/`Cancel`/
`Join`) is code of this repository that is not under src/; per the spec,
`Terminate`'s cancellation is two-phase — the loop's own `status == Executing`
check, plus "a forced interrupt of the worker if it is currently parked in the
sleep-gate wait", after which the worker "itself sets the final status back to
WaitingForExecute as it exits". So with `cancelled = true` a worker at the
gate or parked in the wait does not (re-)block and proceeds. Everything else
follows the loop source (src/Element.h lines 166-191): the body runs `DoWork`
iff `state == Play`, the gate blocks while `canSleep`, passing the gate resets
`canSleep` to `true`, and leaving the loop runs
`SetExecutionState(WaitingForExecute)`. -/
def workerStep (cancelled : Bool) (e : Element) (loc : WorkerLoc) :
    Element × WorkerLoc :=
  match loc with
  | WorkerLoc.loopTop =>
      if e.status = ExecutionState.Executing then
        if e.state = MediaState.Play then (e, WorkerLoc.working)
        else (e, WorkerLoc.gate)
      else
        ({e with status := ExecutionState.WaitingForExecute}, WorkerLoc.exited)
  | WorkerLoc.working => (e, WorkerLoc.gate)
  | WorkerLoc.gate =>
      if !cancelled && e.canSleep then (e, WorkerLoc.sleeping)
      else ({e with canSleep := true}, WorkerLoc.loopTop)
  | WorkerLoc.sleeping =>
      if !cancelled && e.canSleep then (e, WorkerLoc.sleeping)
      else ({e with canSleep := true}, WorkerLoc.loopTop)
  | WorkerLoc.exited => (e, WorkerLoc.exited)

/-- Run the worker for at most `fuel` small steps (a step at `exited` changes
nothing); used to model `thread.Join()` blocking until the routine returns. -/
def runWorker (cancelled : Bool) : Nat → Element → WorkerLoc → Element × WorkerLoc
  | 0, e, loc => (e, loc)
  | n + 1, e, loc =>
      let s := workerStep cancelled e loc
      runWorker cancelled n s.1 s.2

/-! ## Theorems -/

/-- C1: the claim fails on the code at `index == count`. For the concrete
collection holding pins `[10, 20]` (k = 2), in-range lookups return the
handles in insertion order and `Item(-1)`, `Item(3)` throw the out-of-range
error, but `Item(2)` — that is, `Item(count)` — passes the `index >
pins.size()` bound check and performs an out-of-bounds vector access (the
`Except.ok none`) instead of failing with an out-of-range error. -/
theorem item_accepts_index_eq_count :
    PinCollection.Item (⟨[10, 20]⟩ : PinCollection Nat) 0 = Except.ok (some 10) ∧
    PinCollection.Item (⟨[10, 20]⟩ : PinCollection Nat) 1 = Except.ok (some 20) ∧
    PinCollection.Item (⟨[10, 20]⟩ : PinCollection Nat) (-1)
      = Except.error ElemError.argumentOutOfRange ∧
    PinCollection.Item (⟨[10, 20]⟩ : PinCollection Nat) 3
      = Except.error ElemError.argumentOutOfRange ∧
    PinCollection.Item (⟨[10, 20]⟩ : PinCollection Nat) 2 = Except.ok none := by
  refine ⟨?_, ?_, ?_, ?_, ?_⟩ <;> rfl

/-- C2: `Execute` fails with the invalid-operation error iff `status` is not
`WaitingForExecute` at the time of the call, and a failed `Execute` leaves
the whole element — status, play state, name, both pin collections — exactly
as it was. -/
theorem execute_fails_iff_not_waiting (e : Element) :
    ((Element.Execute e).2.2 = some ElemError.invalidOperation ↔
      Element.Status e ≠ ExecutionState.WaitingForExecute) ∧
    ((Element.Execute e).2.2 ≠ none → (Element.Execute e).1 = e) := by
  unfold Element.Execute Element.Status
  by_cases h : e.status = ExecutionState.WaitingForExecute <;> simp [h]

/-- C3: `Terminate` fails with the invalid-operation error iff `status` is not
`Executing` at the time of the call — in particular on a freshly constructed
element, whose status is `WaitingForExecute` — and a failed `Terminate`
leaves the whole element exactly as it was. -/
theorem terminate_fails_iff_not_executing (e : Element) :
    ((Element.Terminate e).2.2 = some ElemError.invalidOperation ↔
      Element.Status e ≠ ExecutionState.Executing) ∧
    ((Element.Terminate e).2.2 ≠ none → (Element.Terminate e).1 = e) := by
  unfold Element.Terminate Element.Status
  by_cases h : e.status = ExecutionState.Executing <;> simp [h]

/-- `Event.flushIn` is injective: distinct input pins give distinct events. -/
theorem flushIn_injective : Function.Injective Event.flushIn := by
  intro a b h
  injection h

/-- `Event.flushOut` is injective: distinct output pins give distinct events. -/
theorem flushOut_injective : Function.Injective Event.flushOut := by
  intro a b h
  injection h

/-- An input-flush event never occurs among output-flush events. -/
theorem count_flushIn_map_flushOut (p : Nat) (l : List Nat) :
    List.count (Event.flushIn p) (l.map Event.flushOut) = 0 := by
  induction l with
  | nil => rfl
  | cons a l ih => simp [List.count_cons, ih]

/-- An output-flush event never occurs among input-flush events. -/
theorem count_flushOut_map_flushIn (p : Nat) (l : List Nat) :
    List.count (Event.flushOut p) (l.map Event.flushIn) = 0 := by
  induction l with
  | nil => rfl
  | cons a l ih => simp [List.count_cons, ih]

/-- C4: when `Terminate` is called with `status == Executing`, its effects
occur in this order: `status` is set to `Terminating` first; then `Flush`
runs, flushing every pin of the input collection in insertion order and then
every pin of the output collection in insertion order; then the worker cancel
and the blocking join. Each pin handle is flushed exactly as often as it
occurs in its collection — exactly once for each pin held. -/
theorem terminate_order (e : Element)
    (h : Element.Status e = ExecutionState.Executing) :
    (Element.Terminate e).2.1
      = Event.setStatus ExecutionState.Terminating
          :: (e.inputs.pins.map Event.flushIn ++ e.outputs.pins.map Event.flushOut
              ++ [Event.threadCancel, Event.threadJoin]) ∧
    (∀ p : Nat, (Element.Terminate e).2.1.count (Event.flushIn p)
        = e.inputs.pins.count p) ∧
    (∀ p : Nat, (Element.Terminate e).2.1.count (Event.flushOut p)
        = e.outputs.pins.count p) := by
  have h' : e.status = ExecutionState.Executing := h
  refine ⟨?_, ?_, ?_⟩
  · simp [Element.Terminate, Element.SetExecutionState, Element.Flush,
      PinCollection.Flush, h']
  · intro p
    simp [Element.Terminate, Element.SetExecutionState, Element.Flush,
      PinCollection.Flush, h', List.count_cons, List.count_append,
      count_flushIn_map_flushOut,
      List.count_map_of_injective _ _ flushIn_injective]
  · intro p
    simp [Element.Terminate, Element.SetExecutionState, Element.Flush,
      PinCollection.Flush, h', List.count_cons, List.count_append,
      count_flushOut_map_flushIn,
      List.count_map_of_injective _ _ flushOut_injective]

/-- C4 witness: a concrete `Executing` element with input pins `[1, 2]` and
output pin `[3]`; its terminate trace is the claimed sequence. -/
theorem terminate_order_witness :
    Element.Status
        { status := ExecutionState.Executing, inputs := ⟨[1, 2]⟩,
          outputs := ⟨[3]⟩ }
      = ExecutionState.Executing ∧
    (Element.Terminate
        { status := ExecutionState.Executing, inputs := ⟨[1, 2]⟩,
          outputs := ⟨[3]⟩ }).2.1
      = [Event.setStatus ExecutionState.Terminating, Event.flushIn 1,
         Event.flushIn 2, Event.flushOut 3, Event.threadCancel,
         Event.threadJoin] :=
  ⟨rfl,
    (terminate_order
      { status := ExecutionState.Executing, inputs := ⟨[1, 2]⟩,
        outputs := ⟨[3]⟩ } rfl).1⟩

/-- C5: after a successful `Terminate` the joined worker's exit sequence
always completes with `Status() = WaitingForExecute`, from any live worker
location — about to run `DoWork`, about to check the inner gate, parked in
the sleep-gate wait, or at the loop's own status check; three steps of the
cancelled worker always suffice. -/
theorem terminate_final_status (e : Element) (loc : WorkerLoc)
    (h : Element.Status e = ExecutionState.Executing)
    (hloc : loc ≠ WorkerLoc.exited) :
    (runWorker true 3 (Element.Terminate e).1 loc).2 = WorkerLoc.exited ∧
    Element.Status (runWorker true 3 (Element.Terminate e).1 loc).1
      = ExecutionState.WaitingForExecute := by
  have h' : e.status = ExecutionState.Executing := h
  have ht : (Element.Terminate e).1
      = {e with status := ExecutionState.Terminating} := by
    simp [Element.Terminate, Element.SetExecutionState, h']
  rw [ht]
  cases loc with
  | loopTop => exact ⟨rfl, rfl⟩
  | working => exact ⟨rfl, rfl⟩
  | gate => exact ⟨rfl, rfl⟩
  | sleeping => exact ⟨rfl, rfl⟩
  | exited => exact absurd rfl hloc

/-- C5 witness: a concrete `Executing` element whose worker is parked in the
sleep-gate wait. -/
theorem terminate_final_status_witness :
    Element.Status { status := ExecutionState.Executing }
        = ExecutionState.Executing ∧
    WorkerLoc.sleeping ≠ WorkerLoc.exited ∧
    ((runWorker true 3
        (Element.Terminate { status := ExecutionState.Executing }).1
        WorkerLoc.sleeping).2 = WorkerLoc.exited ∧
     Element.Status (runWorker true 3
        (Element.Terminate { status := ExecutionState.Executing }).1
        WorkerLoc.sleeping).1 = ExecutionState.WaitingForExecute) :=
  ⟨rfl, by decide,
    terminate_final_status { status := ExecutionState.Executing }
      WorkerLoc.sleeping rfl (by decide)⟩

/-- `wakeGate` is idempotent on the element state. -/
theorem wakeGate_idem (e : Element) :
    Element.wakeGate (Element.wakeGate e) = Element.wakeGate e := rfl

/-- Iterating `wakeGate` at least once equals applying it once. -/
theorem wakeGate_iterate (e : Element) (n : Nat) (h : 1 ≤ n) :
    Element.wakeGate^[n] e = Element.wakeGate e := by
  obtain ⟨m, rfl⟩ : ∃ m, n = m + 1 := ⟨n - 1, by omega⟩
  clear h
  induction m with
  | zero => rfl
  | succ m ih =>
      rw [Function.iterate_succ_apply', ih, wakeGate_idem]

/-- C6: `Wake` is level-triggered and coalescing: for n ≥ 1, n wakes before
the worker checks the gate leave the element exactly as one wake leaves it
(idempotent on the gate state); the next loop iteration is then exactly the
iteration a single wake produces, it does not sleep (the one suppressed
sleep), and afterwards `canSleep` is `true` again — so at most one extra
iteration results, not n. -/
theorem wake_coalesces (e : Element) (n : Nat) (h : 1 ≤ n) :
    Element.wakeGate^[n] e = Element.wakeGate e ∧
    Element.loopIter (Element.wakeGate^[n] e)
      = Element.loopIter (Element.wakeGate e) ∧
    (Element.loopIter (Element.wakeGate^[n] e)).2.2 = false ∧
    (Element.loopIter (Element.wakeGate^[n] e)).1.canSleep = true := by
  have key := wakeGate_iterate e n h
  exact ⟨key, by rw [key], by rw [key]; rfl, by rw [key]; rfl⟩

/-- C6 witness: three wakes on a fresh element coalesce into one. -/
theorem wake_coalesces_witness :
    1 ≤ 3 ∧
    (Element.wakeGate^[3] ({} : Element) = Element.wakeGate {} ∧
     Element.loopIter (Element.wakeGate^[3] ({} : Element))
        = Element.loopIter (Element.wakeGate {}) ∧
     (Element.loopIter (Element.wakeGate^[3] ({} : Element))).2.2 = false ∧
     (Element.loopIter (Element.wakeGate^[3] ({} : Element))).1.canSleep
        = true) :=
  ⟨by decide, wake_coalesces {} 3 (by decide)⟩

/-- C7: `SetState` with a genuinely new value updates the play state to the
new value, invokes the `ChangeState` hook with the old and the new value, and
calls `Wake()` — while `status`, the name, and both pin collections are left
untouched: a play-state change never directly alters the execution status. -/
theorem setState_updates_and_wakes (e : Element) (value : MediaState)
    (h : value ≠ Element.State e) :
    (Element.SetState e value).1.state = value ∧
    (Element.SetState e value).2
      = [Event.changeState e.state value, Event.wake] ∧
    (Element.SetState e value).1.status = e.status ∧
    (Element.SetState e value).1.name = e.name ∧
    (Element.SetState e value).1.inputs = e.inputs ∧
    (Element.SetState e value).1.outputs = e.outputs := by
  have h' : e.state ≠ value := Ne.symm h
  simp [Element.SetState, Element.ChangeState, Element.Wake, h']

/-- C7 witness: `SetState(Play)` on a fresh (paused) element. -/
theorem setState_updates_and_wakes_witness :
    MediaState.Play ≠ Element.State ({} : Element) ∧
    ((Element.SetState ({} : Element) MediaState.Play).1.state
        = MediaState.Play ∧
     (Element.SetState ({} : Element) MediaState.Play).2
        = [Event.changeState ({} : Element).state MediaState.Play, Event.wake] ∧
     (Element.SetState ({} : Element) MediaState.Play).1.status
        = ({} : Element).status ∧
     (Element.SetState ({} : Element) MediaState.Play).1.name
        = ({} : Element).name ∧
     (Element.SetState ({} : Element) MediaState.Play).1.inputs
        = ({} : Element).inputs ∧
     (Element.SetState ({} : Element) MediaState.Play).1.outputs
        = ({} : Element).outputs) :=
  ⟨by decide, setState_updates_and_wakes {} MediaState.Play (by decide)⟩

/-- C8: in one iteration of the worker's loop, `DoWork` is invoked exactly
once when `playState == Play` at the iteration's check and never otherwise —
hence at most once per iteration — and the iteration leaves `status`
unchanged, so while paused the loop keeps running as `Executing` without
ever invoking `DoWork`. -/
theorem doWork_only_when_playing (e : Element) :
    ((Element.loopIter e).2.1.count Event.doWork
        = if Element.State e = MediaState.Play then 1 else 0) ∧
    Element.Status (Element.loopIter e).1 = Element.Status e := by
  unfold Element.loopIter Element.State Element.Status
  by_cases h : e.state = MediaState.Play <;> simp [h]

/-- C9: `SetState` with the current play state is a complete no-op: the
`ChangeState` hook is not invoked, no wake happens, no event at all is
emitted, and the element record is unchanged. -/
theorem setState_same_state_noop (e : Element) (value : MediaState)
    (h : value = Element.State e) :
    Element.SetState e value = (e, []) := by
  have h' : e.state = value := h.symm
  simp [Element.SetState, h']

/-- C9 witness: `SetState(Pause)` on a fresh (paused) element. -/
theorem setState_same_state_noop_witness :
    MediaState.Pause = Element.State ({} : Element) ∧
    Element.SetState ({} : Element) MediaState.Pause = ({}, []) :=
  ⟨rfl, setState_same_state_noop {} MediaState.Pause rfl⟩

/-- C10: when the broadcast primitive fails, `Wake` raises the
synchronization error only after the sleep gate has already been cleared:
the failed call leaves `canSleep = false` — the error path is not atomic. -/
theorem wake_failure_clears_gate (e : Element) :
    (Element.Wake e false).2.2 = some ElemError.synchronization ∧
    (Element.Wake e false).1.canSleep = false ∧
    (Element.Wake e false).1 = {e with canSleep := false} :=
  ⟨rfl, rfl, rfl⟩

end C2Play
